import Mathlib

/-!
Verification development for the similarity-middleware repository
(src/hf_client.py, src/server.py, src/extractor.py).

The development shallowly embeds the remote-call resilience layer
(`SimilarityClient` in src/hf_client.py) and the HTTP handlers that feed
it (src/server.py).  External effects (constructing a `gradio_client.Client`,
calling `predict`, calling `view_api`) are modelled by an oracle `World`
giving the outcome of the k-th call of each kind; executions additionally
record a trace of observable events (connection attempts, remote
invocations with the handle used, sleeps with their durations), so that
attempt counts, backoff schedules and handle reuse are provable facts of
the embedding.

Numbers: Python floats are modelled as rationals; the spec constrains
`maxRetries` to integers that are at least 0, so `retries` is a natural
number.
-/

/-- Python values as they cross the remote-call boundary (the shapes the
code in src/hf_client.py lines 71-79 distinguishes: list, tuple, float,
int, bool — a subclass of int in Python — plus strings, dicts and None
for the other shapes). -/
inductive PyVal where
  | pyFloat (q : ℚ)
  | pyInt (n : ℤ)
  | pyBool (b : Bool)
  | pyStr (s : String)
  | pyNone
  | pyList (xs : List PyVal)
  | pyTuple (xs : List PyVal)
  | pyDict (fields : List (String × PyVal))

/-- Python exceptions as compare/healthcheck observe them: the repository
class GradioSpaceError (message, optional detail: src/hf_client.py lines
5-9), and any other exception carrying only its rendered message. -/
inductive PyErr where
  | gradioSpaceError (message : String) (detail : Option String)
  | otherError (message : String)
deriving DecidableEq

instance {ε α : Type} [DecidableEq ε] [DecidableEq α] : DecidableEq (Except ε α) :=
  fun a b =>
    match a, b with
    | .ok x, .ok y => decidable_of_iff (x = y) (by simp)
    | .error x, .error y => decidable_of_iff (x = y) (by simp)
    | .ok _, .error _ => isFalse (by simp)
    | .error _, .ok _ => isFalse (by simp)

/-- Python str(e) on an exception: GradioSpaceError was initialised with
super().init(message), so str returns the message; for other exceptions we
carry the rendered message directly. -/
def pyErrStr : PyErr → String
  | .gradioSpaceError m _ => m
  | .otherError m => m

/-- Python str(last_err) where last_err may still be None
(src/hf_client.py line 59 and 88). -/
def lastErrStr : Option PyErr → String
  | none => "None"
  | some e => pyErrStr e

/-- Whitespace as matched by a regex \s and by str.strip in the source
(src/server.py line 35); modelled on the ASCII whitespace set. -/
def pyIsSpace (c : Char) : Bool :=
  c = ' ' || c = '\t' || c = '\n' || c = '\r' || c = '\x0b' || c = '\x0c'

/-- Digit run to a natural number. -/
def digitsToNat (ds : List Char) : ℕ :=
  ds.foldl (fun a c => 10 * a + (c.toNat - 48)) 0

/-- Python float(s) on a string: strips surrounding whitespace and parses
an optional sign, an integer part and an optional fractional part
(the common decimal subset; exponents, inf and nan are not modelled). -/
def parseFloatStr (s : String) : Option ℚ :=
  let cs := ((s.data.dropWhile pyIsSpace).reverse.dropWhile pyIsSpace).reverse
  let signed : ℚ × List Char :=
    match cs with
    | '-' :: r => (-1, r)
    | '+' :: r => (1, r)
    | r => (1, r)
  let intPart := signed.2.takeWhile Char.isDigit
  let rest := signed.2.dropWhile Char.isDigit
  match rest with
  | [] =>
    if intPart = [] then none
    else some (signed.1 * (digitsToNat intPart : ℚ))
  | '.' :: fr =>
    if fr.all Char.isDigit ∧ (intPart ≠ [] ∨ fr ≠ []) then
      some (signed.1 * ((digitsToNat intPart : ℚ) +
        (digitsToNat fr : ℚ) / ((10 : ℚ) ^ fr.length)))
    else none
  | _ => none

/-- Python float(x) applied to a value (src/hf_client.py lines 75 and 77):
floats, ints and bools convert to their numeric value, numeric strings
parse, anything else raises (TypeError / ValueError). -/
def pyFloatOf : PyVal → Except PyErr ℚ
  | .pyFloat q => .ok q
  | .pyInt n => .ok (n : ℚ)
  | .pyBool b => .ok (if b then 1 else 0)
  | .pyStr s =>
    match parseFloatStr s with
    | some q => .ok q
    | none => .error (.otherError ("could not convert string to float: " ++ s))
  | _ => .error (.otherError "float argument must be a string or a real number")

mutual

/-- Python str(result) on a remote response value, used as the detail of
the protocol error (src/hf_client.py line 79). -/
def pyValStr : PyVal → String
  | .pyFloat q => toString q
  | .pyInt n => toString n
  | .pyBool b => if b then "True" else "False"
  | .pyStr s => s
  | .pyNone => "None"
  | .pyList xs => "[" ++ pyValJoin xs ++ "]"
  | .pyTuple xs => "(" ++ pyValJoin xs ++ ")"
  | .pyDict fs => "dict(" ++ pyValJoinKV fs ++ ")"

def pyValJoin : List PyVal → String
  | [] => ""
  | [x] => pyValStr x
  | x :: xs => pyValStr x ++ ", " ++ pyValJoin xs

def pyValJoinKV : List (String × PyVal) → String
  | [] => ""
  | [kv] => kv.1 ++ ": " ++ pyValStr kv.2
  | kv :: xs => kv.1 ++ ": " ++ pyValStr kv.2 ++ ", " ++ pyValJoinKV xs

end

/-- The guard isinstance(result, (list, tuple)) and len(result) >= 2 of
src/hf_client.py line 74; on success yields result[1]. -/
def seqScore : PyVal → Option PyVal
  | .pyList (_ :: x :: _) => some x
  | .pyTuple (_ :: x :: _) => some x
  | _ => none

/-- The guard isinstance(result, (float, int)) of src/hf_client.py line
76 (Python bool is a subclass of int); yields the numeric value, which is
what float(result) returns on it. -/
def numericScore : PyVal → Option ℚ
  | .pyFloat q => some q
  | .pyInt n => some (n : ℚ)
  | .pyBool b => some (if b then 1 else 0)
  | _ => none

/-- Response normalization, src/hf_client.py lines 74-79: a list/tuple of
length at least 2 yields float(result[1]); a bare numeric yields itself;
any other shape raises GradioSpaceError with the rendered raw response as
detail. -/
def normalizeResult (result : PyVal) : Except PyErr ℚ :=
  match seqScore result with
  | some x => pyFloatOf x
  | none =>
    match numericScore result with
    | some q => .ok q
    | none =>
      .error (.gradioSpaceError "Unexpected Space return format."
        (some (pyValStr result)))

/-- Configuration and mutable state of a SimilarityClient instance
(src/hf_client.py lines 12-33).  The connection handle is opaque; we
model it by a natural-number identity so that handle replacement and
reuse are observable.  The spec data model constrains maxRetries to
integers that are at least 0, hence retries is a natural number. -/
structure ClientState where
  space_url : String
  api_name : String
  timeout_s : ℕ
  retries : ℕ
  backoff_s : ℚ
  client : Option ℕ
deriving DecidableEq

/-- Counts of external calls made so far, used to index the oracle. -/
structure Counters where
  connects : ℕ
  predicts : ℕ
  views : ℕ
deriving DecidableEq

/-- Oracle for the external effects: the outcome of the k-th
Client(space_url) construction (a fresh handle identity or the message of
the raised exception), of the k-th predict call, and of the k-th
view_api call. -/
structure World where
  connect : ℕ → Except String ℕ
  predict : ℕ → Except String PyVal
  view_api : ℕ → Except String PyVal

/-- Observable events of an execution: a Client(space_url) construction
attempt (with its success flag), a predict invocation (with the handle it
used), and a time.sleep with its duration. -/
inductive Event where
  | connectCall (ok : Bool)
  | predictCall (handle : ℕ)
  | sleepCall (d : ℚ)
deriving DecidableEq

def isConnectEv : Event → Bool
  | .connectCall _ => true
  | _ => false

def isPredictEv : Event → Bool
  | .predictCall _ => true
  | _ => false

/-- The sleep durations of a trace, in order. -/
def sleepDurations (evs : List Event) : List ℚ :=
  evs.filterMap fun ev =>
    match ev with
    | .sleepCall d => some d
    | _ => none

namespace SimilarityClient

/-- Constructor, src/hf_client.py lines 12-33: tries Client(space_url)
once; on failure keeps the handle as None instead of propagating the
exception (the return type carries no error at all). -/
def init (w : World) (space_url api_name : String) (timeout_s : ℕ)
    (retries : ℕ) (backoff_s : ℚ) (cnt : Counters) :
    ClientState × Counters × List Event :=
  match w.connect cnt.connects with
  | .ok h =>
    (⟨space_url, api_name, timeout_s, retries, backoff_s, some h⟩,
     { cnt with connects := cnt.connects + 1 }, [.connectCall true])
  | .error _ =>
    (⟨space_url, api_name, timeout_s, retries, backoff_s, none⟩,
     { cnt with connects := cnt.connects + 1 }, [.connectCall false])

/-- The method _ensure_client, src/hf_client.py lines 35-41: when the
stored handle is None, one construction attempt is made; its failure
raises GradioSpaceError immediately (no retry).  On success the new
handle is stored.  The returned handle is the one subsequent predict
calls use. -/
def _ensure_client (w : World) (st : ClientState) (cnt : Counters) :
    Except PyErr (ClientState × ℕ) × Counters × List Event :=
  match st.client with
  | some h => (.ok (st, h), cnt, [])
  | none =>
    match w.connect cnt.connects with
    | .ok h =>
      (.ok ({ st with client := some h }, h),
       { cnt with connects := cnt.connects + 1 }, [.connectCall true])
    | .error e =>
      (.error (.gradioSpaceError "Failed to initialize Gradio client." (some e)),
       { cnt with connects := cnt.connects + 1 }, [.connectCall false])

/-- The method healthcheck, src/hf_client.py lines 43-50: ensure the
client, query view_api, return whether the metadata is a dict; any
exception anywhere yields False.  The return type is Bool: no error can
propagate. -/
def healthcheck (w : World) (st : ClientState) (cnt : Counters) :
    Bool × ClientState × Counters × List Event :=
  match _ensure_client w st cnt with
  | (.error _, cnt1, evs) => (false, st, cnt1, evs)
  | (.ok (st1, _), cnt1, evs) =>
    match w.view_api cnt1.views with
    | .error _ => (false, st1, { cnt1 with views := cnt1.views + 1 }, evs)
    | .ok v =>
      (match v with
       | .pyDict _ => true
       | _ => false,
       st1, { cnt1 with views := cnt1.views + 1 }, evs)

/-- Outcome of one loop attempt before the except handler: the predict
call itself (src/hf_client.py lines 63-69) followed by response
normalization (lines 74-79); a raised exception of either step is what
the except branch at line 81 catches. -/
def attemptOutcome (w : World) (k : ℕ) : Except PyErr ℚ :=
  match w.predict k with
  | .error e => .error (.otherError e)
  | .ok result => normalizeResult result

/-- The retry loop of compare, src/hf_client.py lines 61-88:
for attempt in range(retries + 1), run the attempt; on success return the
score; on failure sleep backoff_s * (attempt + 1) and continue when
attempt < retries, raise GradioSpaceError on the last attempt.
remaining is the number of loop iterations still to run (the loop is
entered with attempt = 0 and remaining = retries + 1); when it reaches 0
control falls out of the loop to the final raise at line 88. -/
def compareAttempts (w : World) (h : ℕ) (backoff : ℚ) (retries : ℕ) :
    ℕ → ℕ → Counters → Option PyErr → Except PyErr ℚ × Counters × List Event
  | _, 0, cnt, last_err =>
    (.error (.gradioSpaceError "Unknown error after retries."
      (some (lastErrStr last_err))), cnt, [])
  | attempt, r + 1, cnt, _ =>
    let outcome := attemptOutcome w cnt.predicts
    let cnt1 := { cnt with predicts := cnt.predicts + 1 }
    match outcome with
    | .ok q => (.ok q, cnt1, [.predictCall h])
    | .error e =>
      if attempt < retries then
        let d := backoff * ((attempt : ℚ) + 1)
        let rest := compareAttempts w h backoff retries (attempt + 1) r cnt1 (some e)
        (rest.1, rest.2.1, .predictCall h :: .sleepCall d :: rest.2.2)
      else
        (.error (.gradioSpaceError "Failed calling Gradio Space."
          (some (pyErrStr e))), cnt1, [.predictCall h])

/-- The method compare, src/hf_client.py lines 52-88: _ensure_client runs
once, before the loop; its failure propagates immediately.  The loop then
runs on the handle it produced. -/
def compare (w : World) (st : ClientState) (cnt : Counters)
    (lang text1 text2 : String) :
    Except PyErr ℚ × ClientState × Counters × List Event :=
  match _ensure_client w st cnt with
  | (.error e, cnt1, evs) => (.error e, st, cnt1, evs)
  | (.ok (st1, h), cnt1, evs) =>
    let r := compareAttempts w h st1.backoff_s st1.retries 0 (st1.retries + 1) cnt1 none
    (r.1, st1, r.2.1, evs ++ r.2.2)

end SimilarityClient

/-! Server layer, src/server.py. -/

/-- Configured cap on free-text length, src/server.py line 15 (the
default of the MAX_TEXT_CHARS environment variable). -/
def MAX_TEXT_CHARS : ℕ := 20000

/-- Character-level core of re.sub applied with pattern \s+ and
replacement a single space (src/server.py line 35): each maximal run of
whitespace becomes one space.  The flag records whether the previous
character was part of a whitespace run. -/
def collapseWSAux : Bool → List Char → List Char
  | _, [] => []
  | prevSpace, c :: rest =>
    if pyIsSpace c then
      if prevSpace then collapseWSAux true rest
      else ' ' :: collapseWSAux true rest
    else c :: collapseWSAux false rest

/-- re.sub with pattern \s+ and replacement a single space. -/
def collapseWS (s : String) : String :=
  String.mk (collapseWSAux false s.data)

/-- Python str.strip(): drop leading and trailing whitespace. -/
def pyStrip (s : String) : String :=
  String.mk (((s.data.dropWhile pyIsSpace).reverse.dropWhile pyIsSpace).reverse)

/-- The helper _clean_text, src/server.py lines 34-36: collapse
whitespace runs, strip, then cut to MAX_TEXT_CHARS when longer.  The
handlers resolve the Python `s or ""` guard before calling (a missing or
null field becomes the empty string). -/
def _clean_text (s : String) : String :=
  let t := pyStrip (collapseWS s)
  if t.length > MAX_TEXT_CHARS then String.mk (t.data.take MAX_TEXT_CHARS) else t

/-- The accepted language tags, src/server.py line 32. -/
def LANG_SET : List String := ["kannada", "english"]

/-- Python str.lower() (ASCII behaviour suffices for the tags involved). -/
def pyLower (s : String) : String :=
  String.mk (s.data.map Char.toLower)

/-- Python str.capitalize(): first character upper-cased, rest
lower-cased (ASCII behaviour suffices for the two tags involved). -/
def pyCapitalize (s : String) : String :=
  match s.data with
  | [] => ""
  | c :: rest => String.mk (c.toUpper :: rest.map Char.toLower)

/-- The helper _validate_lang, src/server.py lines 38-44: a missing or
empty tag is rejected, otherwise the stripped lower-cased tag must be in
LANG_SET and is forwarded capitalized. -/
def _validate_lang (lang : Option String) : Except String String :=
  match lang with
  | none => .error "Missing lang. Valid values: kannada or english."
  | some lg =>
    if lg = "" then .error "Missing lang. Valid values: kannada or english."
    else
      let l := pyLower (pyStrip lg)
      if l ∈ LANG_SET then .ok (pyCapitalize l)
      else .error "Invalid lang. Use kannada or english."

/-- JSON body of POST /v1/compare-text as the handler reads it
(src/server.py lines 80-82): body.get of lang has no default, the two
text fields default to the empty string and a null value also cleans to
the empty string, so they are resolved to plain strings here. -/
structure TextBody where
  lang : Option String
  text1 : Option String
  text2 : Option String

/-- Outcome of a handler up to the remote call: either an early rejection
with an HTTP status and message, or the triple of arguments forwarded to
SimilarityClient.compare. -/
inductive HandlerOutcome where
  | reject (status : ℕ) (error : String)
  | forward (lang text1 text2 : String)
deriving DecidableEq

/-- The handler compare_text, src/server.py lines 65-103, up to the call
client.compare(lang_for_space, text1, text2): clean both texts, reject
empties, validate the language, forward. -/
def compare_text (body : TextBody) : HandlerOutcome :=
  let text1 := _clean_text (body.text1.getD "")
  let text2 := _clean_text (body.text2.getD "")
  if text1 = "" ∨ text2 = "" then
    .reject 400 "Both text1 and text2 are required and non-empty."
  else
    match _validate_lang body.lang with
    | .error e => .reject 400 e
    | .ok lang_for_space => .forward lang_for_space text1 text2

/-- Multipart form of POST /v1/compare-file as the handler reads it
(src/server.py lines 114-126): form.get of lang and transcript_text
default to the empty string; the extraction collaborator outcome is an
input of the model (error flag true means the ValueError of an
unsupported type, false any other extraction failure). -/
structure FileForm where
  lang : String
  transcript_text : String
  file_present : Bool
  filename : String
  extract : Except (Bool × String) (String × String)

/-- The handler compare_file, src/server.py lines 106-156, up to the call
client.compare(lang_for_space, transcript_text, file_text): clean the
transcript, check file presence and name, run extraction (415 on
unsupported type, 500 on other failures), clean the extracted text,
reject empties, validate the language, forward. -/
def compare_file (f : FileForm) : HandlerOutcome :=
  let transcript_text := _clean_text f.transcript_text
  if f.file_present = false then .reject 400 "Missing file field."
  else if f.filename = "" then .reject 400 "Invalid file name."
  else
    match f.extract with
    | .error flagged =>
      if flagged.1 then .reject 415 flagged.2
      else .reject 500 "Failed to extract text from file."
    | .ok extracted =>
      let file_text := _clean_text extracted.1
      if transcript_text = "" then .reject 400 "Missing or empty transcript_text."
      else if file_text = "" then .reject 422 "No extractable text found."
      else
        match _validate_lang (some f.lang) with
        | .error e => .reject 400 e
        | .ok lang_for_space => .forward lang_for_space transcript_text file_text

/-! Spec-side normalization, for the refinement claim about _clean_text.
These definitions follow the words of the spec sentence: collapse every
run of whitespace to a single space, trim leading and trailing
whitespace, truncate to the configured maximum, in that order. -/

/-- Modelled from the spec wording: every maximal run of whitespace
characters is replaced by a single space (a whitespace character merges
into an already-collapsed run to its right). -/
def specCollapseChars : List Char → List Char
  | [] => []
  | c :: cs =>
    let rest := specCollapseChars cs
    if pyIsSpace c then
      if rest.head? = some ' ' then rest else ' ' :: rest
    else c :: rest

/-- Modelled from the spec wording: collapse whitespace runs. -/
def specCollapse (s : String) : String :=
  String.mk (specCollapseChars s.data)

/-- Modelled from the spec wording: trim leading and trailing whitespace. -/
def specTrim (s : String) : String :=
  String.mk (((s.data.dropWhile pyIsSpace).reverse.dropWhile pyIsSpace).reverse)

/-- Modelled from the spec wording: truncate to at most n characters. -/
def specTruncate (n : ℕ) (s : String) : String := String.mk (s.data.take n)

/-- Modelled from the spec wording of the text normalization rule:
collapse, trim, truncate to MAX_TEXT_CHARS, in that order. -/
def specNormalize (s : String) : String :=
  specTruncate MAX_TEXT_CHARS (specTrim (specCollapse s))

/-! Trace helpers and concrete fixtures used by the theorems below. -/

/-- The trace the retry loop produces when every attempt fails, starting
at attempt number a with r further attempts after the current one: each
failed non-final attempt is followed by a sleep of backoff * (attempt+1). -/
def allFailEvents (h : ℕ) (b : ℚ) : ℕ → ℕ → List Event
  | _, 0 => [.predictCall h]
  | a, r + 1 =>
    .predictCall h :: .sleepCall (b * ((a : ℚ) + 1)) :: allFailEvents h b (a + 1) r

/-- Strip one leading collapsed space, used to relate the two collapse
recursions. -/
def dropLeadingSpace (l : List Char) : List Char :=
  if l.head? = some ' ' then l.tail else l

/-- World whose endpoint accepts connections but where every predict
call raises a network error, and view_api raises too. -/
def wFailNet : World :=
  ⟨fun k => .ok (100 + k), fun _ => .error "network unreachable", fun _ => .error "network unreachable"⟩

/-- World whose endpoint refuses every connection. -/
def wConnFail : World :=
  ⟨fun _ => .error "space unreachable", fun _ => .error "network unreachable", fun _ => .error "network unreachable"⟩

/-- World whose remote returns the documented (label, score) pair. -/
def wPair : World :=
  ⟨fun k => .ok (100 + k), fun _ => .ok (.pyList [.pyStr "match", .pyFloat 1]), fun _ => .ok (.pyDict [])⟩

/-- World whose remote returns a dict, an unexpected shape. -/
def wBadShape : World :=
  ⟨fun k => .ok (100 + k), fun _ => .ok (.pyDict [("unexpected", .pyStr "shape")]), fun _ => .ok (.pyDict [])⟩

/-- World whose remote is healthy: connects, and view_api returns a dict. -/
def wHealthy : World :=
  ⟨fun k => .ok (100 + k), fun _ => .ok (.pyFloat 1), fun _ => .ok (.pyDict [])⟩

/-- A client state with a live handle 7, two retries, backoff 2 seconds. -/
def stLive : ClientState := ⟨"https://sp.ace", "/_on_click", 30, 2, 2, some 7⟩

/-- A client state with a live handle 7 and a single retry. -/
def stLive1 : ClientState := ⟨"https://sp.ace", "/_on_click", 30, 1, 2, some 7⟩

/-- A client state with a live handle 7 and no retries. -/
def stLive0 : ClientState := ⟨"https://sp.ace", "/_on_click", 30, 0, 2, some 7⟩

/-- A client state with no handle, two retries, backoff 2 seconds. -/
def stCold : ClientState := ⟨"https://sp.ace", "/_on_click", 30, 2, 2, none⟩

/-! Theorems.  Shared lemmas about the retry loop come first; the claim
theorems follow. -/

/-- When every attempt fails, the retry loop runs all its remaining
iterations, sleeps linearly between them, and surfaces the last error
wrapped in the outer GradioSpaceError. -/
theorem compareAttempts_allFail (w : World) (h : ℕ) (b : ℚ) (retries : ℕ)
    (hfail : ∀ k, ∃ e, SimilarityClient.attemptOutcome w k = .error e) :
    ∀ r a cnt le, a + r = retries →
      ∃ elast, SimilarityClient.attemptOutcome w (cnt.predicts + r) = .error elast ∧
        SimilarityClient.compareAttempts w h b retries a (r + 1) cnt le =
          (.error (.gradioSpaceError "Failed calling Gradio Space."
             (some (pyErrStr elast))),
           ⟨cnt.connects, cnt.predicts + r + 1, cnt.views⟩,
           allFailEvents h b a r) := by
  intro r
  induction r with
  | zero =>
    intro a cnt le ha
    obtain ⟨e, he⟩ := hfail cnt.predicts
    refine ⟨e, by simpa using he, ?_⟩
    have hnotlt : ¬ a < retries := by omega
    simp [SimilarityClient.compareAttempts, he, hnotlt, allFailEvents]
  | succ r ih =>
    intro a cnt le ha
    obtain ⟨e, he⟩ := hfail cnt.predicts
    obtain ⟨elast, helast, hrec⟩ :=
      ih (a + 1) ⟨cnt.connects, cnt.predicts + 1, cnt.views⟩ (some e) (by omega)
    refine ⟨elast, ?_, ?_⟩
    · have harith : cnt.predicts + (r + 1) = cnt.predicts + 1 + r := by omega
      rw [harith]
      exact helast
    · have hlt : a < retries := by omega
      have harith2 : cnt.predicts + 1 + r + 1 = cnt.predicts + (r + 1) + 1 := by omega
      conv_lhs => rw [SimilarityClient.compareAttempts]
      simp only [he, hlt, if_true]
      rw [hrec]
      simp [allFailEvents, harith2]

/-- Each all-fail trace holds one remote invocation per loop iteration. -/
theorem allFailEvents_countP_predict (h : ℕ) (b : ℚ) :
    ∀ r a, (allFailEvents h b a r).countP isPredictEv = r + 1 := by
  intro r
  induction r with
  | zero => intro a; simp [allFailEvents, isPredictEv, List.countP_cons]
  | succ r ih =>
    intro a
    simp [allFailEvents, List.countP_cons, isPredictEv, ih (a + 1)]

/-- All-fail traces make no connection attempt. -/
theorem allFailEvents_countP_connect (h : ℕ) (b : ℚ) :
    ∀ r a, (allFailEvents h b a r).countP isConnectEv = 0 := by
  intro r
  induction r with
  | zero => intro a; simp [allFailEvents, isConnectEv, List.countP_cons]
  | succ r ih =>
    intro a
    simp [allFailEvents, List.countP_cons, isConnectEv, ih (a + 1)]

/-- The sleep durations of an all-fail trace are the linear backoff
schedule. -/
theorem allFailEvents_sleeps (h : ℕ) (b : ℚ) :
    ∀ r a, sleepDurations (allFailEvents h b a r) =
      (List.range r).map (fun i => b * (((a + i : ℕ) : ℚ) + 1)) := by
  intro r
  induction r with
  | zero => intro a; simp [allFailEvents, sleepDurations]
  | succ r ih =>
    intro a
    rw [List.range_succ_eq_map]
    simp only [allFailEvents, sleepDurations, List.filterMap_cons]
    simp only [sleepDurations] at ih
    simp [ih (a + 1), List.map_map, Function.comp]
    intro i _
    left
    ring

/-- In any execution of the retry loop the sleep durations form an
initial segment of the linear backoff schedule starting at the loop's
first attempt number. -/
theorem compareAttempts_sleeps_schedule (w : World) (h : ℕ) (b : ℚ) (retries : ℕ) :
    ∀ r a cnt le, ∃ m,
      sleepDurations (SimilarityClient.compareAttempts w h b retries a r cnt le).2.2 =
        (List.range m).map (fun i => b * (((a + i : ℕ) : ℚ) + 1)) := by
  intro r
  induction r with
  | zero =>
    intro a cnt le
    exact ⟨0, by simp [SimilarityClient.compareAttempts, sleepDurations]⟩
  | succ r ih =>
    intro a cnt le
    rcases hout : SimilarityClient.attemptOutcome w cnt.predicts with e | q
    · by_cases hlt : a < retries
      · obtain ⟨m, hm⟩ := ih (a + 1) ⟨cnt.connects, cnt.predicts + 1, cnt.views⟩ (some e)
        refine ⟨m + 1, ?_⟩
        conv_lhs => rw [SimilarityClient.compareAttempts]
        simp only [hout, hlt, if_true]
        rw [List.range_succ_eq_map]
        simp only [sleepDurations, List.filterMap_cons] at hm ⊢
        simp [hm, List.map_map, Function.comp]
        intro i _
        left
        ring
      · refine ⟨0, ?_⟩
        conv_lhs => rw [SimilarityClient.compareAttempts]
        simp [hout, hlt, sleepDurations]
    · refine ⟨0, ?_⟩
      conv_lhs => rw [SimilarityClient.compareAttempts]
      simp [hout, sleepDurations]

/-- In any execution of the retry loop that starts within the loop bound,
the number of invocation attempts exceeds the number of sleeps by one:
sleeps separate consecutive attempts. -/
theorem compareAttempts_preds_sleeps (w : World) (h : ℕ) (b : ℚ) (retries : ℕ) :
    ∀ r a cnt le, a + r = retries + 1 → 1 ≤ r →
      (SimilarityClient.compareAttempts w h b retries a r cnt le).2.2.countP isPredictEv =
        (sleepDurations (SimilarityClient.compareAttempts w h b retries a r cnt le).2.2).length + 1 := by
  intro r
  induction r with
  | zero => intro a cnt le _ hr; omega
  | succ r ih =>
    intro a cnt le hinv _
    rcases hout : SimilarityClient.attemptOutcome w cnt.predicts with e | q
    · by_cases hlt : a < retries
      · have hr1 : 1 ≤ r := by omega
        have := ih (a + 1) ⟨cnt.connects, cnt.predicts + 1, cnt.views⟩ (some e) (by omega) hr1
        conv_lhs => rw [SimilarityClient.compareAttempts]
        conv_rhs => rw [SimilarityClient.compareAttempts]
        simp only [hout, hlt, if_true]
        simp only [sleepDurations, List.filterMap_cons, List.countP_cons] at this ⊢
        simp [isPredictEv, this]
      · conv_lhs => rw [SimilarityClient.compareAttempts]
        conv_rhs => rw [SimilarityClient.compareAttempts]
        simp [hout, hlt, sleepDurations, isPredictEv, List.countP_cons]
    · conv_lhs => rw [SimilarityClient.compareAttempts]
      conv_rhs => rw [SimilarityClient.compareAttempts]
      simp [hout, sleepDurations, isPredictEv, List.countP_cons]

/-- Every event of the retry loop is either an invocation on the handle
the loop was entered with, or a sleep: the loop never makes a connection
attempt and never switches handle. -/
theorem compareAttempts_events_shape (w : World) (h : ℕ) (b : ℚ) (retries : ℕ) :
    ∀ r a cnt le ev, ev ∈ (SimilarityClient.compareAttempts w h b retries a r cnt le).2.2 →
      ev = .predictCall h ∨ ∃ d, ev = .sleepCall d := by
  intro r
  induction r with
  | zero =>
    intro a cnt le ev hev
    simp [SimilarityClient.compareAttempts] at hev
  | succ r ih =>
    intro a cnt le ev hev
    rcases hout : SimilarityClient.attemptOutcome w cnt.predicts with e | q
    · by_cases hlt : a < retries
      · rw [SimilarityClient.compareAttempts] at hev
        simp only [hout, hlt, if_true] at hev
        simp only [List.mem_cons] at hev
        rcases hev with rfl | hev
        · exact Or.inl rfl
        rcases hev with rfl | hev
        · exact Or.inr ⟨_, rfl⟩
        · exact ih (a + 1) ⟨cnt.connects, cnt.predicts + 1, cnt.views⟩ (some e) ev hev
      · rw [SimilarityClient.compareAttempts] at hev
        simp only [hout, hlt, if_false] at hev
        simp at hev
        exact Or.inl (by simp [hev])
    · rw [SimilarityClient.compareAttempts] at hev
      simp only [hout] at hev
      simp at hev
      exact Or.inl (by simp [hev])

/-- Entered within its bound, the retry loop terminates by returning a
score or by raising the outer retry-exhaustion error; control never falls
out of the loop. -/
theorem compareAttempts_no_fallthrough (w : World) (h : ℕ) (b : ℚ) (retries : ℕ) :
    ∀ r a cnt le, a + r = retries + 1 → 1 ≤ r →
      (∃ q, (SimilarityClient.compareAttempts w h b retries a r cnt le).1 = .ok q) ∨
      (∃ d, (SimilarityClient.compareAttempts w h b retries a r cnt le).1 =
        .error (.gradioSpaceError "Failed calling Gradio Space." d)) := by
  intro r
  induction r with
  | zero => intro a cnt le _ hr; omega
  | succ r ih =>
    intro a cnt le hinv _
    rcases hout : SimilarityClient.attemptOutcome w cnt.predicts with e | q
    · by_cases hlt : a < retries
      · have hr1 : 1 ≤ r := by omega
        have hrec := ih (a + 1) ⟨cnt.connects, cnt.predicts + 1, cnt.views⟩ (some e) (by omega) hr1
        rw [SimilarityClient.compareAttempts]
        simp only [hout, hlt, if_true]
        exact hrec
      · right
        refine ⟨some (pyErrStr e), ?_⟩
        conv_lhs => rw [SimilarityClient.compareAttempts]
        simp [hout, hlt]
    · left
      refine ⟨q, ?_⟩
      conv_lhs => rw [SimilarityClient.compareAttempts]
      simp [hout]

/-- Claim C1: for every configuration with retries = n, if the connection
is already established and every remote invocation fails, compare makes
exactly n + 1 invocation attempts before surfacing a failure to the
caller. -/
theorem compare_attempt_count_on_total_failure
    (w : World) (st : ClientState) (cnt : Counters) (h : ℕ) (lang t1 t2 : String)
    (hlive : st.client = some h)
    (hfail : ∀ k, ∃ e, SimilarityClient.attemptOutcome w k = .error e) :
    (SimilarityClient.compare w st cnt lang t1 t2).2.2.2.countP isPredictEv =
      st.retries + 1 ∧
    ∃ d, (SimilarityClient.compare w st cnt lang t1 t2).1 =
      .error (.gradioSpaceError "Failed calling Gradio Space." d) := by
  have hens : SimilarityClient._ensure_client w st cnt = (.ok (st, h), cnt, []) := by
    simp [SimilarityClient._ensure_client, hlive]
  obtain ⟨elast, helast, hrun⟩ :=
    compareAttempts_allFail w h st.backoff_s st.retries hfail st.retries 0 cnt none
      (by omega)
  have hcmp : SimilarityClient.compare w st cnt lang t1 t2 =
      (.error (.gradioSpaceError "Failed calling Gradio Space."
         (some (pyErrStr elast))), st,
       ⟨cnt.connects, cnt.predicts + st.retries + 1, cnt.views⟩,
       allFailEvents h st.backoff_s 0 st.retries) := by
    simp only [SimilarityClient.compare, hens]
    rw [hrun]
    simp
  rw [hcmp]
  exact ⟨allFailEvents_countP_predict h st.backoff_s st.retries 0, some (pyErrStr elast), rfl⟩

/-- Witness for claim C1 at a concrete world and state: two retries and a
remote that always raises give exactly three invocation attempts. -/
theorem compare_attempt_count_on_total_failure_witness :
    (SimilarityClient.compare wFailNet stLive ⟨0, 0, 0⟩ "English" "a" "b").2.2.2.countP
      isPredictEv = stLive.retries + 1 :=
  (compare_attempt_count_on_total_failure wFailNet stLive ⟨0, 0, 0⟩ 7 "English" "a" "b"
    rfl (fun _ => ⟨.otherError "network unreachable", rfl⟩)).1

/-- Claim C7: when the endpoint is unreachable at construction time the
constructor does not propagate the failure (its type carries no error
case): it completes with the connection handle absent. -/
theorem init_swallows_connect_failure
    (w : World) (url api : String) (t r : ℕ) (b : ℚ) (cnt : Counters) (e : String)
    (hconn : w.connect cnt.connects = .error e) :
    SimilarityClient.init w url api t r b cnt =
      (⟨url, api, t, r, b, none⟩, ⟨cnt.connects + 1, cnt.predicts, cnt.views⟩,
       [.connectCall false]) := by
  simp [SimilarityClient.init, hconn]

/-- Witness for claim C7 at a concrete unreachable world. -/
theorem init_swallows_connect_failure_witness :
    SimilarityClient.init wConnFail "https://sp.ace" "/_on_click" 30 2 2 ⟨0, 0, 0⟩ =
      (⟨"https://sp.ace", "/_on_click", 30, 2, 2, none⟩, ⟨1, 0, 0⟩,
       [.connectCall false]) :=
  init_swallows_connect_failure wConnFail "https://sp.ace" "/_on_click" 30 2 2
    ⟨0, 0, 0⟩ "space unreachable" rfl

/-- Claim C10: whenever _ensure_client succeeds, compare either returns a
score from inside the loop or raises the per-attempt exhaustion error
from the last attempt; the final raise after the loop (Unknown error
after retries) is unreachable. -/
theorem compare_final_raise_unreachable
    (w : World) (st : ClientState) (cnt : Counters) (lang t1 t2 : String)
    (st1 : ClientState) (hh : ℕ) (cnt1 : Counters) (evs : List Event)
    (hok : SimilarityClient._ensure_client w st cnt = (.ok (st1, hh), cnt1, evs)) :
    ((∃ q, (SimilarityClient.compare w st cnt lang t1 t2).1 = .ok q) ∨
     (∃ d, (SimilarityClient.compare w st cnt lang t1 t2).1 =
       .error (.gradioSpaceError "Failed calling Gradio Space." d))) ∧
    ∀ d, (SimilarityClient.compare w st cnt lang t1 t2).1 ≠
      .error (.gradioSpaceError "Unknown error after retries." d) := by
  have hloop := compareAttempts_no_fallthrough w hh st1.backoff_s st1.retries
    (st1.retries + 1) 0 cnt1 none (by omega) (by omega)
  have hcmp1 : (SimilarityClient.compare w st cnt lang t1 t2).1 =
      (SimilarityClient.compareAttempts w hh st1.backoff_s st1.retries 0
        (st1.retries + 1) cnt1 none).1 := by
    simp [SimilarityClient.compare, hok]
  rw [hcmp1]
  refine ⟨hloop, ?_⟩
  intro d hcontra
  rcases hloop with ⟨q, hq⟩ | ⟨d', hd⟩
  · rw [hq] at hcontra
    exact Except.noConfusion hcontra
  · rw [hd] at hcontra
    have : "Failed calling Gradio Space." = "Unknown error after retries." := by
      injection hcontra with h1
      injection h1
    exact absurd this (by decide)

/-- Witness for claim C10 at a concrete world with a live connection. -/
theorem compare_final_raise_unreachable_witness :
    (SimilarityClient.compare wFailNet stLive ⟨0, 0, 0⟩ "English" "a" "b").1 ≠
      .error (.gradioSpaceError "Unknown error after retries." (some "None")) :=
  (compare_final_raise_unreachable wFailNet stLive ⟨0, 0, 0⟩ "English" "a" "b"
    stLive 7 ⟨0, 0, 0⟩ [] rfl).2 (some "None")

/-- Claim C5: healthcheck always returns a boolean (its type carries no
error case, so no failure can propagate) and collapses every underlying
failure — connection-establishment failure, metadata-query failure or
malformed metadata — into the return value false; it returns true only
when establishment succeeded and the metadata query returned a dict. -/
theorem healthcheck_collapses_failures (w : World) (st : ClientState) (cnt : Counters) :
    ((SimilarityClient.healthcheck w st cnt).1 = true ∨
     (SimilarityClient.healthcheck w st cnt).1 = false) ∧
    (∀ e cnt1 evs, SimilarityClient._ensure_client w st cnt = (.error e, cnt1, evs) →
      (SimilarityClient.healthcheck w st cnt).1 = false) ∧
    (∀ st1 hh cnt1 evs e,
      SimilarityClient._ensure_client w st cnt = (.ok (st1, hh), cnt1, evs) →
      w.view_api cnt1.views = .error e →
      (SimilarityClient.healthcheck w st cnt).1 = false) ∧
    (∀ st1 hh cnt1 evs v,
      SimilarityClient._ensure_client w st cnt = (.ok (st1, hh), cnt1, evs) →
      w.view_api cnt1.views = .ok v → (∀ fs, v ≠ .pyDict fs) →
      (SimilarityClient.healthcheck w st cnt).1 = false) ∧
    ((SimilarityClient.healthcheck w st cnt).1 = true →
      ∃ st1 hh cnt1 evs fs,
        SimilarityClient._ensure_client w st cnt = (.ok (st1, hh), cnt1, evs) ∧
        w.view_api cnt1.views = .ok (.pyDict fs)) := by
  refine ⟨?_, ?_, ?_, ?_, ?_⟩
  · rcases SimilarityClient.healthcheck w st cnt with ⟨b, _⟩
    cases b <;> simp
  · intro e cnt1 evs hens
    simp [SimilarityClient.healthcheck, hens]
  · intro st1 hh cnt1 evs e hens hview
    simp [SimilarityClient.healthcheck, hens, hview]
  · intro st1 hh cnt1 evs v hens hview hnd
    cases v
    case pyDict fs => exact absurd rfl (hnd fs)
    all_goals simp [SimilarityClient.healthcheck, hens, hview]
  · intro htrue
    rcases hens : SimilarityClient._ensure_client w st cnt with ⟨res, cnt1, evs⟩
    rcases res with e | ⟨st1, hh⟩
    · simp [SimilarityClient.healthcheck, hens] at htrue
    · rcases hview : w.view_api cnt1.views with e | v
      · simp [SimilarityClient.healthcheck, hens, hview] at htrue
      · cases v
        case pyDict fs => exact ⟨st1, hh, cnt1, evs, fs, rfl, hview⟩
        all_goals simp [SimilarityClient.healthcheck, hens, hview] at htrue

/-- Witness for claim C5: an unreachable endpoint makes healthcheck
return false, and a healthy endpoint with dict metadata makes it return
true via the completeness direction. -/
theorem healthcheck_collapses_failures_witness :
    (SimilarityClient.healthcheck wConnFail stCold ⟨0, 0, 0⟩).1 = false :=
  (healthcheck_collapses_failures wConnFail stCold ⟨0, 0, 0⟩).2.1
    (.gradioSpaceError "Failed to initialize Gradio client." (some "space unreachable"))
    ⟨1, 0, 0⟩ [.connectCall false] rfl

/-- The retry loop, entered with at least one iteration to run, always
performs at least one remote invocation. -/
theorem compareAttempts_one_attempt (w : World) (h : ℕ) (b : ℚ) (retries : ℕ)
    (r a : ℕ) (cnt : Counters) (le : Option PyErr) (hr : 1 ≤ r) :
    1 ≤ (SimilarityClient.compareAttempts w h b retries a r cnt le).2.2.countP
      isPredictEv := by
  rcases r with _ | r
  · omega
  rw [SimilarityClient.compareAttempts]
  rcases SimilarityClient.attemptOutcome w cnt.predicts with e | q
  · by_cases hlt : a < retries <;> simp [hlt, List.countP_cons, isPredictEv]
  · simp [List.countP_cons, isPredictEv]

/-- Claim C2: response normalization on a successful attempt follows the
ordered decode rules of the source: a list or tuple of length at least
two yields float of its element at index 1 (the first element is
discarded); a bare numeric value is returned itself; any other shape
raises the protocol error carrying the rendered raw response as detail,
and that failure counts as the attempt's failure and triggers the retry
loop (a backoff sleep and a further attempt when retries remain, the
outer retry-exhaustion error wrapping the protocol message when none
remain). -/
theorem compare_normalization_rules :
    (∀ x y rest, normalizeResult (.pyList (x :: y :: rest)) = pyFloatOf y) ∧
    (∀ x y rest, normalizeResult (.pyTuple (x :: y :: rest)) = pyFloatOf y) ∧
    (∀ v q, numericScore v = some q → normalizeResult v = .ok q) ∧
    (∀ v, seqScore v = none → numericScore v = none →
      normalizeResult v = .error (.gradioSpaceError "Unexpected Space return format."
        (some (pyValStr v)))) ∧
    (∀ w st cnt lang t1 t2 h v, st.client = some h →
      w.predict cnt.predicts = .ok v → seqScore v = none → numericScore v = none →
      1 ≤ st.retries →
      (SimilarityClient.compare w st cnt lang t1 t2).2.2.2.take 2 =
        [.predictCall h, .sleepCall (st.backoff_s * 1)] ∧
      2 ≤ (SimilarityClient.compare w st cnt lang t1 t2).2.2.2.countP isPredictEv) ∧
    (∀ w st cnt lang t1 t2 h v, st.client = some h →
      w.predict cnt.predicts = .ok v → seqScore v = none → numericScore v = none →
      st.retries = 0 →
      (SimilarityClient.compare w st cnt lang t1 t2).1 =
        .error (.gradioSpaceError "Failed calling Gradio Space."
          (some "Unexpected Space return format."))) := by
  refine ⟨?_, ?_, ?_, ?_, ?_, ?_⟩
  · intro x y rest; simp [normalizeResult, seqScore]
  · intro x y rest; simp [normalizeResult, seqScore]
  · intro v q hq; cases v <;> simp_all [normalizeResult, seqScore, numericScore]
  · intro v h1 h2; simp [normalizeResult, h1, h2]
  · intro w st cnt lang t1 t2 h v hlive hpred h1 h2 hret
    have hens : SimilarityClient._ensure_client w st cnt = (.ok (st, h), cnt, []) := by
      simp [SimilarityClient._ensure_client, hlive]
    have hout : SimilarityClient.attemptOutcome w cnt.predicts =
        .error (.gradioSpaceError "Unexpected Space return format."
          (some (pyValStr v))) := by
      simp [SimilarityClient.attemptOutcome, hpred, normalizeResult, h1, h2]
    have hlt : 0 < st.retries := hret
    have hevsEq : (SimilarityClient.compare w st cnt lang t1 t2).2.2.2 =
        .predictCall h :: .sleepCall (st.backoff_s * 1) ::
          (SimilarityClient.compareAttempts w h st.backoff_s st.retries 1 st.retries
            ⟨cnt.connects, cnt.predicts + 1, cnt.views⟩
            (some (.gradioSpaceError "Unexpected Space return format."
              (some (pyValStr v))))).2.2 := by
      simp only [SimilarityClient.compare, hens]
      conv_lhs => rw [SimilarityClient.compareAttempts]
      simp [hout, hlt]
    rw [hevsEq]
    refine ⟨by simp, ?_⟩
    have hone := compareAttempts_one_attempt w h st.backoff_s st.retries st.retries 1
      ⟨cnt.connects, cnt.predicts + 1, cnt.views⟩
      (some (.gradioSpaceError "Unexpected Space return format."
        (some (pyValStr v)))) hret
    simp only [List.countP_cons, isPredictEv]
    simp [isPredictEv] at hone ⊢
    exact hone
  · intro w st cnt lang t1 t2 h v hlive hpred h1 h2 hret
    have hens : SimilarityClient._ensure_client w st cnt = (.ok (st, h), cnt, []) := by
      simp [SimilarityClient._ensure_client, hlive]
    have hout : SimilarityClient.attemptOutcome w cnt.predicts =
        .error (.gradioSpaceError "Unexpected Space return format."
          (some (pyValStr v))) := by
      simp [SimilarityClient.attemptOutcome, hpred, normalizeResult, h1, h2]
    simp only [SimilarityClient.compare, hens]
    conv_lhs => rw [SimilarityClient.compareAttempts]
    simp [hout, hret, pyErrStr]

/-- Witness for claim C2: the documented (label, score) pair decodes to
float of the score, and a dict response at a live connection triggers the
backoff sleep and a second attempt. -/
theorem compare_normalization_rules_witness :
    normalizeResult (.pyList [.pyStr "match", .pyFloat 1]) = pyFloatOf (.pyFloat 1) ∧
    (SimilarityClient.compare wBadShape stLive ⟨0, 0, 0⟩ "English" "a" "b").2.2.2.take 2 =
      [.predictCall 7, .sleepCall (stLive.backoff_s * 1)] ∧
    2 ≤ (SimilarityClient.compare wBadShape stLive ⟨0, 0, 0⟩ "English" "a" "b").2.2.2.countP
      isPredictEv :=
  ⟨compare_normalization_rules.1 (.pyStr "match") (.pyFloat 1) [],
   compare_normalization_rules.2.2.2.2.1 wBadShape stLive ⟨0, 0, 0⟩ "English" "a" "b" 7
     (.pyDict [("unexpected", .pyStr "shape")]) rfl rfl rfl rfl (by decide)⟩

/-- Claim C4: in every execution of compare at a live connection there
are m + 1 invocation attempts for some m, the sleeps between consecutive
attempts follow the linear schedule (the sleep at index k - 2, separating
attempt k - 1 from attempt k, lasts backoff_s * (k - 1)), and the
schedule is monotonically non-decreasing for a non-negative backoff
base. -/
theorem compare_backoff_linear_schedule
    (w : World) (st : ClientState) (cnt : Counters) (h : ℕ) (lang t1 t2 : String)
    (hlive : st.client = some h) :
    ∃ m,
      (SimilarityClient.compare w st cnt lang t1 t2).2.2.2.countP isPredictEv = m + 1 ∧
      sleepDurations (SimilarityClient.compare w st cnt lang t1 t2).2.2.2 =
        (List.range m).map (fun i : ℕ => st.backoff_s * ((i : ℚ) + 1)) ∧
      (∀ k, 2 ≤ k → k ≤ m + 1 →
        (sleepDurations (SimilarityClient.compare w st cnt lang t1 t2).2.2.2).get? (k - 2) =
          some (st.backoff_s * ((k : ℚ) - 1))) ∧
      (0 ≤ st.backoff_s →
        List.Pairwise (· ≤ ·)
          (sleepDurations (SimilarityClient.compare w st cnt lang t1 t2).2.2.2)) := by
  have hens : SimilarityClient._ensure_client w st cnt = (.ok (st, h), cnt, []) := by
    simp [SimilarityClient._ensure_client, hlive]
  have hevs : (SimilarityClient.compare w st cnt lang t1 t2).2.2.2 =
      (SimilarityClient.compareAttempts w h st.backoff_s st.retries 0
        (st.retries + 1) cnt none).2.2 := by
    simp [SimilarityClient.compare, hens]
  obtain ⟨m, hm⟩ := compareAttempts_sleeps_schedule w h st.backoff_s st.retries
    (st.retries + 1) 0 cnt none
  simp only [Nat.zero_add] at hm
  have hcount := compareAttempts_preds_sleeps w h st.backoff_s st.retries
    (st.retries + 1) 0 cnt none (by omega) (by omega)
  refine ⟨m, ?_, ?_, ?_, ?_⟩
  · rw [hevs, hcount, hm]
    simp
  · rw [hevs, hm]
  · intro k hk2 hkm
    rw [hevs, hm]
    rw [List.get?_map, List.get?_range (by omega)]
    have hcast : ((k - 2 : ℕ) : ℚ) + 1 = (k : ℚ) - 1 := by
      have : ((k - 2 : ℕ) : ℚ) = (k : ℚ) - 2 := by
        push_cast [Nat.cast_sub (by omega : 2 ≤ k)]
        ring
      rw [this]
      ring
    simp [hcast]
  · intro hb
    rw [hevs, hm, List.pairwise_map]
    refine (List.pairwise_lt_range m).imp ?_
    intro i j hij
    have hle : (i : ℚ) + 1 ≤ (j : ℚ) + 1 := by
      have : (i : ℚ) ≤ (j : ℚ) := by exact_mod_cast Nat.le_of_lt hij
      linarith
    exact mul_le_mul_of_nonneg_left hle hb

/-- Witness for claim C4 at a concrete world and live state: two
retries and a remote that always fails give sleeps of backoff * 1 and
backoff * 2 between the three attempts. -/
theorem compare_backoff_linear_schedule_witness :
    sleepDurations (SimilarityClient.compare wFailNet stLive ⟨0, 0, 0⟩ "English" "a" "b").2.2.2 =
      [stLive.backoff_s * 1, stLive.backoff_s * 2] := by
  obtain ⟨m, hcount, hsleeps, -, -⟩ :=
    compare_backoff_linear_schedule wFailNet stLive ⟨0, 0, 0⟩ 7 "English" "a" "b" rfl
  have h3 : (SimilarityClient.compare wFailNet stLive ⟨0, 0, 0⟩ "English" "a" "b").2.2.2.countP
      isPredictEv = 3 := by decide
  have hm : m = 2 := by omega
  rw [hsleeps, hm]
  norm_num [List.range_succ]

/-- Counterexample to claim C3 as stated: with retries = 2 and an
endpoint that refuses connections, compare invoked with no live handle
makes exactly one establishment attempt and surfaces the failure
immediately — the establishment failure is not retried. -/
theorem compare_connect_failure_not_retried_cex :
    stCold.retries = 2 ∧
    (SimilarityClient.compare wConnFail stCold ⟨0, 0, 0⟩ "English" "a" "b").2.2.2 =
      [.connectCall false] ∧
    (SimilarityClient.compare wConnFail stCold ⟨0, 0, 0⟩ "English" "a" "b").1 =
      .error (.gradioSpaceError "Failed to initialize Gradio client."
        (some "space unreachable")) ∧
    (SimilarityClient.compare wConnFail stCold ⟨0, 0, 0⟩ "English" "a" "b").2.2.2.countP
      isConnectEv ≠ stCold.retries + 1 := by
  refine ⟨rfl, by decide, by decide, by decide⟩

/-- Claim C3 amended: remote-call failures (network error, timeout,
malformed response raised by the invocation itself) are retried up to
retries additional times, but connection establishment is attempted only
once per compare call: when no live handle exists and establishment
fails, compare surfaces the establishment error immediately, with no
backoff sleep and no invocation attempt. -/
theorem compare_retries_calls_not_establishment
    (w : World) (st : ClientState) (cnt : Counters) (lang t1 t2 : String) :
    (∀ e, st.client = none → w.connect cnt.connects = .error e →
      SimilarityClient.compare w st cnt lang t1 t2 =
        (.error (.gradioSpaceError "Failed to initialize Gradio client." (some e)),
         st, ⟨cnt.connects + 1, cnt.predicts, cnt.views⟩, [.connectCall false])) ∧
    (∀ h, st.client = some h →
      (∀ k, ∃ e, SimilarityClient.attemptOutcome w k = .error e) →
      (SimilarityClient.compare w st cnt lang t1 t2).2.2.2.countP isPredictEv =
        st.retries + 1) := by
  constructor
  · intro e hnone hconn
    simp [SimilarityClient.compare, SimilarityClient._ensure_client, hnone, hconn]
  · intro h hlive hfail
    have hens : SimilarityClient._ensure_client w st cnt = (.ok (st, h), cnt, []) := by
      simp [SimilarityClient._ensure_client, hlive]
    obtain ⟨elast, helast, hrun⟩ :=
      compareAttempts_allFail w h st.backoff_s st.retries hfail st.retries 0 cnt none
        (by omega)
    have hevs : (SimilarityClient.compare w st cnt lang t1 t2).2.2.2 =
        allFailEvents h st.backoff_s 0 st.retries := by
      simp only [SimilarityClient.compare, hens]
      rw [hrun]
      simp
    rw [hevs]
    exact allFailEvents_countP_predict h st.backoff_s st.retries 0

/-- Witness for the amended claim C3: the establishment failure surfaces
after a single connect attempt, while call failures at a live handle are
retried to retries + 1 attempts. -/
theorem compare_retries_calls_not_establishment_witness :
    SimilarityClient.compare wConnFail stCold ⟨0, 0, 0⟩ "English" "a" "b" =
      (.error (.gradioSpaceError "Failed to initialize Gradio client."
        (some "space unreachable")),
       stCold, ⟨1, 0, 0⟩, [.connectCall false]) ∧
    (SimilarityClient.compare wFailNet stLive ⟨0, 0, 0⟩ "English" "a" "b").2.2.2.countP
      isPredictEv = stLive.retries + 1 :=
  ⟨(compare_retries_calls_not_establishment wConnFail stCold ⟨0, 0, 0⟩ "English" "a" "b").1
      "space unreachable" rfl rfl,
   (compare_retries_calls_not_establishment wFailNet stLive ⟨0, 0, 0⟩ "English" "a" "b").2
      7 rfl (fun _ => ⟨.otherError "network unreachable", rfl⟩)⟩

/-- Counterexample to claim C6 as stated: with a live handle 7, one retry
and a remote whose invocation fails with a network error (connection
loss), the second attempt runs without any ensureConnection re-run: no
connection attempt occurs, both invocations use the same handle 7, and
the stored handle is unchanged. -/
theorem compare_no_reconnect_between_attempts_cex :
    (SimilarityClient.compare wFailNet stLive1 ⟨0, 0, 0⟩ "English" "a" "b").2.2.2.countP
      isPredictEv = 2 ∧
    (SimilarityClient.compare wFailNet stLive1 ⟨0, 0, 0⟩ "English" "a" "b").2.2.2.countP
      isConnectEv = 0 ∧
    (SimilarityClient.compare wFailNet stLive1 ⟨0, 0, 0⟩ "English" "a" "b").2.2.2.countP
      (fun ev => decide (ev = Event.predictCall 7)) = 2 ∧
    (SimilarityClient.compare wFailNet stLive1 ⟨0, 0, 0⟩ "English" "a" "b").2.1.client =
      some 7 := by
  refine ⟨by decide, by decide, by decide, by decide⟩

/-- Claim C6 amended: compare runs _ensure_client only once, before the
retry loop; a failed attempt never replaces the stored handle, the loop
makes no connection attempt, and every invocation of the loop uses the
handle obtained before the loop. -/
theorem compare_reuses_handle_across_attempts
    (w : World) (st : ClientState) (cnt : Counters) (h : ℕ) (lang t1 t2 : String)
    (hlive : st.client = some h) :
    (SimilarityClient.compare w st cnt lang t1 t2).2.1.client = some h ∧
    (SimilarityClient.compare w st cnt lang t1 t2).2.2.2.countP isConnectEv = 0 ∧
    ∀ ev ∈ (SimilarityClient.compare w st cnt lang t1 t2).2.2.2,
      isPredictEv ev = true → ev = .predictCall h := by
  have hens : SimilarityClient._ensure_client w st cnt = (.ok (st, h), cnt, []) := by
    simp [SimilarityClient._ensure_client, hlive]
  have hevs : (SimilarityClient.compare w st cnt lang t1 t2).2.2.2 =
      (SimilarityClient.compareAttempts w h st.backoff_s st.retries 0
        (st.retries + 1) cnt none).2.2 := by
    simp [SimilarityClient.compare, hens]
  have hst : (SimilarityClient.compare w st cnt lang t1 t2).2.1 = st := by
    simp [SimilarityClient.compare, hens]
  refine ⟨by rw [hst]; exact hlive, ?_, ?_⟩
  · rw [hevs]
    rw [List.countP_eq_zero]
    intro ev hev
    rcases compareAttempts_events_shape w h st.backoff_s st.retries
      (st.retries + 1) 0 cnt none ev hev with rfl | ⟨d, rfl⟩ <;>
      simp [isConnectEv]
  · rw [hevs]
    intro ev hev hp
    rcases compareAttempts_events_shape w h st.backoff_s st.retries
      (st.retries + 1) 0 cnt none ev hev with rfl | ⟨d, rfl⟩
    · rfl
    · simp [isPredictEv] at hp

/-- Witness for the amended claim C6 at a concrete failing world. -/
theorem compare_reuses_handle_across_attempts_witness :
    (SimilarityClient.compare wFailNet stLive ⟨0, 0, 0⟩ "English" "a" "b").2.1.client =
      some 7 ∧
    (SimilarityClient.compare wFailNet stLive ⟨0, 0, 0⟩ "English" "a" "b").2.2.2.countP
      isConnectEv = 0 :=
  ⟨(compare_reuses_handle_across_attempts wFailNet stLive ⟨0, 0, 0⟩ 7 "English" "a" "b" rfl).1,
   (compare_reuses_handle_across_attempts wFailNet stLive ⟨0, 0, 0⟩ 7 "English" "a" "b" rfl).2.1⟩

theorem dropLeadingSpace_cons_space (l : List Char) :
    dropLeadingSpace (' ' :: l) = l := by
  simp [dropLeadingSpace]

theorem dropLeadingSpace_of_head_ne (l : List Char) (hne : l.head? ≠ some ' ') :
    dropLeadingSpace l = l := by
  simp [dropLeadingSpace, hne]

/-- The flag recursion of the source collapse and the run-replacement
recursion of the spec wording agree (the flagged variant equals the
spec collapse with one leading collapsed space removed). -/
theorem collapseWSAux_eq_spec (cs : List Char) :
    collapseWSAux false cs = specCollapseChars cs ∧
    collapseWSAux true cs = dropLeadingSpace (specCollapseChars cs) := by
  induction cs with
  | nil => exact ⟨rfl, by simp [collapseWSAux, specCollapseChars, dropLeadingSpace]⟩
  | cons c cs ih =>
    obtain ⟨ihf, iht⟩ := ih
    by_cases hsp : pyIsSpace c
    · by_cases hhd : (specCollapseChars cs).head? = some ' '
      · have hspec : specCollapseChars (c :: cs) = specCollapseChars cs := by
          simp [specCollapseChars, hsp, hhd]
        rcases hS : specCollapseChars cs with _ | ⟨c', t⟩
        · simp [hS] at hhd
        · have hc' : c' = ' ' := by simp [hS] at hhd; exact hhd
          subst hc'
          constructor
          · simp [collapseWSAux, hsp, iht, hS, hspec, dropLeadingSpace]
          · simp [collapseWSAux, hsp, iht, hS, hspec, dropLeadingSpace]
      · have hspec : specCollapseChars (c :: cs) = ' ' :: specCollapseChars cs := by
          simp [specCollapseChars, hsp, hhd]
        constructor
        · simp [collapseWSAux, hsp, iht, hspec,
            dropLeadingSpace_of_head_ne _ hhd]
        · simp [collapseWSAux, hsp, iht, hspec, dropLeadingSpace_cons_space,
            dropLeadingSpace_of_head_ne _ hhd]
    · have hc : c ≠ ' ' := by rintro rfl; exact hsp (by decide)
      have hspec : specCollapseChars (c :: cs) = c :: specCollapseChars cs := by
        simp [specCollapseChars, hsp]
      have hne : (c :: specCollapseChars cs).head? ≠ some ' ' := by
        simp [hc]
      constructor
      · simp [collapseWSAux, hsp, ihf, hspec]
      · simp [collapseWSAux, hsp, ihf, hspec,
          dropLeadingSpace_of_head_ne _ hne]

/-- Claim C8: every free text reaching either comparison endpoint is
forwarded to the remote comparison as the result of collapsing whitespace
runs to single spaces, trimming, and truncating to MAX_TEXT_CHARS, in
that order: the source helper _clean_text equals the spec-worded
normalization, and both handlers forward exactly its image of their raw
inputs (for the file endpoint, of the transcript field and of the
extracted file text). -/
theorem handlers_forward_normalized_text :
    (∀ s, _clean_text s = specNormalize s) ∧
    (∀ body l t1 t2, compare_text body = .forward l t1 t2 →
      t1 = specNormalize (body.text1.getD "") ∧
      t2 = specNormalize (body.text2.getD "")) ∧
    (∀ f l tt ft, compare_file f = .forward l tt ft →
      tt = specNormalize f.transcript_text ∧
      ∃ raw dt, f.extract = .ok (raw, dt) ∧ ft = specNormalize raw) := by
  have hmain : ∀ s, _clean_text s = specNormalize s := by
    intro s
    have hcol : collapseWS s = specCollapse s :=
      congrArg String.mk (collapseWSAux_eq_spec s.data).1
    have htrim : pyStrip (specCollapse s) = specTrim (specCollapse s) := rfl
    unfold _clean_text specNormalize specTruncate
    rw [hcol, htrim]
    by_cases hlen : (specTrim (specCollapse s)).length > MAX_TEXT_CHARS
    · simp [hlen]
    · simp only [hlen, if_false]
      have hlen2 : (specTrim (specCollapse s)).data.length ≤ MAX_TEXT_CHARS := by
        simp only [String.length] at hlen
        omega
      rw [List.take_of_length_le hlen2]
  refine ⟨hmain, ?_, ?_⟩
  · intro body l t1 t2 heq
    by_cases h1 : _clean_text (body.text1.getD "") = "" ∨
        _clean_text (body.text2.getD "") = ""
    · simp [compare_text, h1] at heq
    · rcases hv : _validate_lang body.lang with e | lf
      · simp [compare_text, h1, hv] at heq
      · simp [compare_text, h1, hv] at heq
        exact ⟨by rw [← heq.2.1, hmain], by rw [← heq.2.2, hmain]⟩
  · intro f l tt ft heq
    by_cases hp : f.file_present = false
    · simp [compare_file, hp] at heq
    · by_cases hn : f.filename = ""
      · simp [compare_file, hp, hn] at heq
      · rcases hx : f.extract with fl | ex
        · simp only [compare_file, hp, hn, hx] at heq
          split_ifs at heq
        · by_cases ht : _clean_text f.transcript_text = ""
          · simp [compare_file, hp, hn, hx, ht] at heq
          · by_cases hf2 : _clean_text ex.1 = ""
            · simp [compare_file, hp, hn, hx, ht, hf2] at heq
            · rcases hv : _validate_lang (some f.lang) with e | lf
              · simp [compare_file, hp, hn, hx, ht, hf2, hv] at heq
              · simp [compare_file, hp, hn, hx, ht, hf2, hv] at heq
                exact ⟨by rw [← heq.2.1, hmain],
                  ex.1, ex.2, by simp [hx],
                  by rw [← heq.2.2, hmain]⟩

/-- Witness for claim C8 at concrete request bodies. -/
theorem handlers_forward_normalized_text_witness :
    _clean_text "  hello   world  " = specNormalize "  hello   world  " ∧
    ("x y" = specNormalize ((some " x  y " : Option String).getD "") ∧
     "z" = specNormalize ((some "z" : Option String).getD "")) :=
  ⟨handlers_forward_normalized_text.1 "  hello   world  ",
   handlers_forward_normalized_text.2.1 ⟨some "english", some " x  y ", some "z"⟩
     "English" "x y" "z" (by decide)⟩
